import Mathlib

/-!
# slack-file-bot: a shallow embedding of `main.go`

The program reads a bot token and a channel from the environment, splits the
`-files` flag on commas and uploads every element with `uploadFile`, which
stats and opens the file, derives a title from the extension and calls the
Slack client up to three times.

Everything outside the repository (the operating system, the Slack client, the
clock, the logger) is an explicit `World` of oracles; every call the program
makes to it is recorded, in program order, in a `Trace`.  Each oracle sees the
trace so far, so a world may answer the same call differently at different
times (a file that disappears, an upload that fails twice and then succeeds).

Go strings are modelled as Lean strings (sequences of code points); the library
functions `strings.Split`, `strings.TrimSpace`, `strings.ToLower`,
`filepath.Ext` and `filepath.Base` are transcribed from the Go standard
library for a Unix target, where the only path separator is `/`.
-/

namespace SlackFileBot

/-! ## Values -/

/-- A Go `error` value, identified by its message. -/
structure GoError where
  msg : String
deriving DecidableEq, Repr

/-- Go's `fmt.Errorf` for a format without verbs. -/
def Errorf (msg : String) : GoError := ⟨msg⟩

/-- An `os.FileInfo`, of which the program reads only `Size()`.  `Size()` is an
`int64` and a file length is not negative, so the size is a natural number
below `2 ^ 63`. -/
structure FileInfo where
  size : Nat
  size_lt : size < 2 ^ 63

/-- An open `*os.File`, identified by its descriptor. -/
structure File where
  fd : Nat
deriving DecidableEq, Repr

/-- The `*slack.Client` returned by `slack.New(botToken)`. -/
structure Client where
  token : String
deriving DecidableEq, Repr

/-- The `*slack.FileSummary` returned by a successful upload. -/
structure FileSummary where
  ID : String
  Title : String
deriving DecidableEq, Repr

/-- The fields of `slack.UploadFileV2Parameters` that `uploadFile` sets; the
others keep their zero value. -/
structure UploadFileV2Parameters where
  Channel : String
  Filename : String
  Title : String
  InitialComment : String
  Reader : File
  FileSize : Int
deriving DecidableEq, Repr

/-- Width in bits of Go's `int` on the 64-bit targets this development fixes. -/
def intBits : Nat := 64

/-- The conversion `int(x)` of an `int64`: the value wrapped into the signed
range of `int`. -/
def toInt (x : Int) : Int :=
  (x + 2 ^ (intBits - 1)) % 2 ^ intBits - 2 ^ (intBits - 1)

/-- An argument of a `log.Printf` call. -/
inductive LogArg where
  | str (s : String)
  | int (n : Int)
  | err (e : GoError)
  | summary (s : FileSummary)
deriving DecidableEq, Repr

/-- One call from the program to the outside world. -/
inductive Event where
  | stat (path : String)
  | abs (path : String)
  | openFile (path : String)
  | close (file : File)
  | printf (format : String) (args : List LogArg)
  | upload (api : Client) (params : UploadFileV2Parameters)
  | sleep (nanoseconds : Nat)
deriving DecidableEq, Repr

/-- The calls made so far, oldest first. -/
abbrev Trace := List Event

/-- The outside world: what each external call answers, given the calls made
before it.  `lowerRune` is `unicode.ToLower` on the runes above ASCII (the case
table of the Go library). -/
structure World where
  Stat : Trace → String → Except GoError FileInfo
  Abs : Trace → String → Except GoError String
  Open : Trace → String → Except GoError File
  UploadFileV2 : Trace → Client → UploadFileV2Parameters → Except GoError FileSummary
  lowerRune : Char → Char

/-- Go's `time.Second`, in nanoseconds. -/
def Second : Nat := 1000000000

/-! ## Library functions -/

namespace strings

/-- Index of the first `sep` in `s`, as `strings.IndexByte`. -/
def Index : List Char → Char → Option Nat
  | [], _ => none
  | c :: cs, sep => if c = sep then some 0 else (Index cs sep).map (· + 1)

/-- Number of occurrences of `sep` in `s`, as `strings.Count`. -/
def Count : List Char → Char → Nat
  | [], _ => 0
  | c :: cs, sep => (if c = sep then 1 else 0) + Count cs sep

/-- The loop of `strings.genSplit` for a one-byte separator: at most `n` more
cuts are made, each at the first separator of what is left. -/
def genSplit (sep : Char) : Nat → List Char → List (List Char)
  | 0, s => [s]
  | n + 1, s =>
    match Index s sep with
    | none => [s]
    | some m => s.take m :: genSplit sep n (s.drop (m + 1))

/-- Go's `strings.Split(s, sep)` for a one-byte separator: `Count(s, sep) + 1`
substrings. -/
def Split (s : String) (sep : Char) : List String :=
  (genSplit sep (Count s.data sep) s.data).map String.mk

/-- Go's `unicode.IsSpace`. -/
def isSpace (c : Char) : Bool :=
  let n := c.toNat
  (9 ≤ n && n ≤ 13) || n == 32 || n == 0x85 || n == 0xA0 || n == 0x1680 ||
    (0x2000 ≤ n && n ≤ 0x200a) || n == 0x2028 || n == 0x2029 || n == 0x202f ||
    n == 0x205f || n == 0x3000

/-- Go's `strings.TrimSpace`: leading and trailing white space removed. -/
def TrimSpace (s : String) : String :=
  ⟨((s.data.dropWhile isSpace).reverse.dropWhile isSpace).reverse⟩

/-- Go's `unicode.ToLower`: ASCII letters by arithmetic, other runes through the
case table `tbl`. -/
def toLowerRune (tbl : Char → Char) (c : Char) : Char :=
  if c.toNat ≤ 127 then
    if 65 ≤ c.toNat ∧ c.toNat ≤ 90 then Char.ofNat (c.toNat + 32) else c
  else tbl c

/-- Go's `strings.ToLower`. -/
def ToLower (tbl : Char → Char) (s : String) : String :=
  ⟨s.data.map (toLowerRune tbl)⟩

end strings

namespace filepath

/-- The backward scan of `filepath.Ext` over the reversed path; `acc` is the
part of the path already passed. -/
def extScan : List Char → List Char → List Char
  | [], _ => []
  | c :: rest, acc =>
    if c = '/' then []
    else if c = '.' then '.' :: acc
    else extScan rest (c :: acc)

/-- Go's `filepath.Ext`: the suffix from the last dot of the final path element,
empty when that element has no dot. -/
def Ext (path : String) : String :=
  ⟨extScan path.data.reverse []⟩

/-- Go's `filepath.Base`: the last element of the path, trailing separators
removed first; `.` for the empty path and `/` for a path of separators only. -/
def Base (path : String) : String :=
  if path.data = [] then "."
  else
    let stripped := (path.data.reverse.dropWhile (· = '/')).reverse
    let last := (stripped.reverse.takeWhile (· ≠ '/')).reverse
    if last = [] then "/" else ⟨last⟩

end filepath

/-! ## `uploadFile` -/

/-- The `switch fileExt` of `uploadFile`: title and comment for a lowercased
extension. -/
def titleAndComment (fileExt : String) : String × String :=
  if fileExt = ".pdf" then ("PDF Document", "Here's the PDF document")
  else if fileExt = ".png" ∨ fileExt = ".jpg" ∨ fileExt = ".jpeg" ∨ fileExt = ".gif" then
    ("Image File", "Here's the image file")
  else ("Uploaded File", "Here's the uploaded file")

/-- The retry loop of `uploadFile`, `for i := 0; i < maxRetries; i++`, with
`remaining = maxRetries - i` iterations left. -/
def retryLoop (w : World) (api : Client) (params : UploadFileV2Parameters)
    (maxRetries : Nat) : Nat → Nat → Trace → Option GoError × Trace
  | 0, _, t =>
    (some (Errorf ("failed to upload file after " ++ toString maxRetries ++ " attempts")), t)
  | remaining + 1, i, t =>
    match w.UploadFileV2 t api params with
    | .ok fileUpload =>
      (none, t ++ [.upload api params,
        .printf "File upload successful: %+v\n" [.summary fileUpload]])
    | .error err =>
      retryLoop w api params maxRetries remaining (i + 1)
        (t ++ [.upload api params,
          .printf "Upload attempt %d failed: %v. Retrying...\n" [.int (i + 1), .err err],
          .sleep (Second * 2)])

/-- The function `uploadFile` of `main.go`: the returned error (`none` is `nil`)
and the trace extended by the calls made. -/
def uploadFile (w : World) (api : Client) (channelID filePath : String) (t : Trace) :
    Option GoError × Trace :=
  match w.Stat t filePath with
  | .error err => (some err, t ++ [.stat filePath])
  | .ok fileInfo =>
    let t := t ++ [.stat filePath]
    if fileInfo.size = 0 then (some (Errorf "file is empty"), t)
    else
      match w.Abs t filePath with
      | .error err => (some err, t ++ [.abs filePath])
      | .ok absPath =>
        let t := t ++ [.abs filePath]
        match w.Open t absPath with
        | .error err => (some err, t ++ [.openFile absPath])
        | .ok file =>
          let t := t ++ [.openFile absPath]
          let fileExt := strings.ToLower w.lowerRune (filepath.Ext filePath)
          let title := (titleAndComment fileExt).1
          let comment := (titleAndComment fileExt).2
          let params : UploadFileV2Parameters :=
            { Channel := channelID
              Filename := filepath.Base filePath
              Title := title
              InitialComment := comment
              Reader := file
              FileSize := toInt fileInfo.size }
          let t := t ++ [.printf "Uploading file '%s' to channel '%s'\n"
            [.str params.Filename, .str channelID]]
          let maxRetries := 3
          let r := retryLoop w api params maxRetries maxRetries 0 t
          (r.1, r.2 ++ [.close file])

/-! ## `main` -/

/-- What `flag.Parse()` leaves behind: the process ended inside the flag
package (malformed command line, help request), or parsing succeeded and
`-files` was either absent or given with a value. -/
inductive FlagParse where
  | exit (code : Nat)
  | absent
  | given (value : String)
deriving DecidableEq, Repr

/-- The start-up inputs of the process: the result of `godotenv.Load()`, the
environment after it, and the outcome of flag parsing. -/
structure Process where
  dotenvLoad : Option GoError
  Getenv : String → String
  flags : FlagParse

/-- How `main` ends: by returning, through `log.Fatal`, or inside
`flag.Parse()`. -/
inductive Exit where
  | returned
  | fatal (msg : String)
  | flagExit (code : Nat)
deriving DecidableEq, Repr

/-- The loop `for _, filePath := range strings.Split(filePaths, ",")` of
`main`. -/
def driverLoop (w : World) (api : Client) (channelID : String) :
    List String → Trace → Trace
  | [], t => t
  | filePath :: rest, t =>
    let filePath := strings.TrimSpace filePath
    match uploadFile w api channelID filePath t with
    | (some err, t) =>
      driverLoop w api channelID rest
        (t ++ [.printf "Error uploading file %s: %v" [.str filePath, .err err]])
    | (none, t) => driverLoop w api channelID rest t

/-- The value of the variable `filePaths` once `flag.Parse()` has returned: the
default `""` given to `flag.StringVar`, unless `-files` was on the command
line. -/
def FlagParse.filePaths : FlagParse → String
  | .given value => value
  | _ => ""

/-- The function `main` of `main.go`. -/
def main (w : World) (p : Process) : Exit × Trace :=
  match p.dotenvLoad with
  | some _ => (.fatal "Error loading .env file", [])
  | none =>
    let botToken := p.Getenv "SLACK_BOT_TOKEN"
    let channelID := p.Getenv "CHANNEL_ID"
    if botToken = "" ∨ channelID = "" then
      (.fatal "Error: SLACK_BOT_TOKEN and CHANNEL_ID must be set in the .env file", [])
    else
      match p.flags with
      | .exit code => (.flagExit code, [])
      | flags =>
        let filePaths := flags.filePaths
        if filePaths = "" then
          (.fatal "Error: Please provide at least one file path using the -files flag", [])
        else
          let api : Client := ⟨botToken⟩
          (.returned, driverLoop w api channelID (strings.Split filePaths ',') [])

/-! ## Observations on a trace -/

/-- The paths passed to `os.Stat`, in order.  `os.Stat` is the first statement
of `uploadFile` and is called nowhere else, so this is the list of the
arguments `uploadFile` was invoked with. -/
def statPaths : Trace → List String
  | [] => []
  | .stat path :: t => path :: statPaths t
  | _ :: t => statPaths t

/-- The requests passed to the upload capability, in order. -/
def uploadRequests : Trace → List UploadFileV2Parameters
  | [] => []
  | .upload _ params :: t => params :: uploadRequests t
  | _ :: t => uploadRequests t

/-- The delays slept, in order. -/
def sleeps : Trace → List Nat
  | [] => []
  | .sleep ns :: t => ns :: sleeps t
  | _ :: t => sleeps t

/-- The paths passed to `os.Open`, in order. -/
def openedPaths : Trace → List String
  | [] => []
  | .openFile path :: t => path :: openedPaths t
  | _ :: t => openedPaths t

/-- The request `uploadFile` builds for a file that passed the checks. -/
def requestFor (w : World) (channelID filePath : String) (fileInfo : FileInfo) (file : File) :
    UploadFileV2Parameters :=
  { Channel := channelID
    Filename := filepath.Base filePath
    Title := (titleAndComment (strings.ToLower w.lowerRune (filepath.Ext filePath))).1
    InitialComment := (titleAndComment (strings.ToLower w.lowerRune (filepath.Ext filePath))).2
    Reader := file
    FileSize := toInt fileInfo.size }

/-- The value of `fileExt` in `uploadFile`: the lowercased extension of the
path. -/
def lowercasedExt (w : World) (filePath : String) : String :=
  strings.ToLower w.lowerRune (filepath.Ext filePath)

/-! ## Sample inputs -/

/-- A world for the examples: `b.txt` does not exist, `empty.txt` is empty,
every other path is a file of 10 bytes that opens; the upload capability fails
on its call number `n + 1` exactly when `fails n`. -/
def sampleWorld (fails : Nat → Bool) : World where
  Stat := fun _ path =>
    if path = "b.txt" then .error ⟨"stat b.txt: no such file or directory"⟩
    else if path = "empty.txt" then .ok ⟨0, by decide⟩
    else .ok ⟨10, by decide⟩
  Abs := fun _ path => .ok ("/home/bot/" ++ path)
  Open := fun _ _ => .ok ⟨3⟩
  UploadFileV2 := fun h _ _ =>
    if fails (uploadRequests h).length then .error ⟨"slack server error"⟩
    else .ok ⟨"F0123", "file"⟩
  lowerRune := id

/-- A process whose start-up succeeds, with the given `-files` value. -/
def sampleProcess (files : String) : Process where
  dotenvLoad := none
  Getenv := fun name =>
    if name = "SLACK_BOT_TOKEN" then "xoxb-1" else if name = "CHANNEL_ID" then "C42" else ""
  flags := .given files

end SlackFileBot

namespace SlackFileBot

/-! ## Observations and concatenation -/

theorem statPaths_append (a b : Trace) : statPaths (a ++ b) = statPaths a ++ statPaths b := by
  induction a with
  | nil => rfl
  | cons e a ih => cases e <;> simp [statPaths, ih]

theorem uploadRequests_append (a b : Trace) :
    uploadRequests (a ++ b) = uploadRequests a ++ uploadRequests b := by
  induction a with
  | nil => rfl
  | cons e a ih => cases e <;> simp [uploadRequests, ih]

theorem sleeps_append (a b : Trace) : sleeps (a ++ b) = sleeps a ++ sleeps b := by
  induction a with
  | nil => rfl
  | cons e a ih => cases e <;> simp [sleeps, ih]

theorem openedPaths_append (a b : Trace) :
    openedPaths (a ++ b) = openedPaths a ++ openedPaths b := by
  induction a with
  | nil => rfl
  | cons e a ih => cases e <;> simp [openedPaths, ih]

/-! ## The retry loop -/

theorem retryLoop_statPaths (w : World) (api : Client) (params : UploadFileV2Parameters)
    (m remaining i : Nat) (t : Trace) :
    statPaths (retryLoop w api params m remaining i t).2 = statPaths t := by
  induction remaining generalizing i t with
  | zero => rfl
  | succ n ih =>
    unfold retryLoop
    cases h : w.UploadFileV2 t api params with
    | ok s => simp [statPaths_append, statPaths]
    | error e => simp [ih, statPaths_append, statPaths]

theorem retryLoop_requests (w : World) (api : Client) (params : UploadFileV2Parameters)
    (m remaining i : Nat) (t : Trace) :
    ∃ k, k ≤ remaining ∧
      uploadRequests (retryLoop w api params m remaining i t).2 =
        uploadRequests t ++ List.replicate k params := by
  induction remaining generalizing i t with
  | zero => exact ⟨0, le_refl _, by simp [retryLoop]⟩
  | succ n ih =>
    unfold retryLoop
    cases h : w.UploadFileV2 t api params with
    | ok s => exact ⟨1, by omega, by simp [uploadRequests_append, uploadRequests]⟩
    | error e =>
      obtain ⟨k, hk, hreq⟩ := ih (i + 1)
        (t ++ [.upload api params,
          .printf "Upload attempt %d failed: %v. Retrying...\n" [.int (i + 1), .err e],
          .sleep (Second * 2)])
      refine ⟨k + 1, by omega, ?_⟩
      simp only [hreq]
      simp [uploadRequests_append, uploadRequests, List.replicate_succ]

theorem retryLoop_all_fail (w : World) (api : Client) (params : UploadFileV2Parameters)
    (hfail : ∀ h, ∃ err, w.UploadFileV2 h api params = .error err)
    (m remaining i : Nat) (t : Trace) :
    (retryLoop w api params m remaining i t).1 =
        some (Errorf ("failed to upload file after " ++ toString m ++ " attempts")) ∧
      uploadRequests (retryLoop w api params m remaining i t).2 =
        uploadRequests t ++ List.replicate remaining params ∧
      sleeps (retryLoop w api params m remaining i t).2 =
        sleeps t ++ List.replicate remaining (Second * 2) := by
  induction remaining generalizing i t with
  | zero => simp [retryLoop]
  | succ n ih =>
    obtain ⟨e, he⟩ := hfail t
    unfold retryLoop
    simp only [he]
    obtain ⟨h1, h2, h3⟩ := ih (i + 1)
      (t ++ [.upload api params,
        .printf "Upload attempt %d failed: %v. Retrying...\n" [.int (i + 1), .err e],
        .sleep (Second * 2)])
    refine ⟨h1, ?_, ?_⟩
    · rw [h2]; simp [uploadRequests_append, uploadRequests, List.replicate_succ]
    · rw [h3]; simp [sleeps_append, sleeps, List.replicate_succ]

theorem retryLoop_success_after (w : World) (api : Client) (params : UploadFileV2Parameters)
    (m : Nat) (j : Nat) :
    ∀ (remaining i : Nat) (t : Trace), j < remaining →
      (∀ h, (uploadRequests t).length ≤ (uploadRequests h).length →
        (uploadRequests h).length < (uploadRequests t).length + j →
        ∃ err, w.UploadFileV2 h api params = .error err) →
      (∀ h, (uploadRequests h).length = (uploadRequests t).length + j →
        ∃ s, w.UploadFileV2 h api params = .ok s) →
      (retryLoop w api params m remaining i t).1 = none ∧
        uploadRequests (retryLoop w api params m remaining i t).2 =
          uploadRequests t ++ List.replicate (j + 1) params ∧
        sleeps (retryLoop w api params m remaining i t).2 =
          sleeps t ++ List.replicate j (Second * 2) ∧
        ∃ pre post, (retryLoop w api params m remaining i t).2 =
            pre ++ Event.upload api params :: post ∧
          uploadRequests post = [] ∧ sleeps post = [] := by
  induction j with
  | zero =>
    intro remaining i t hrem _ hok
    obtain ⟨n, rfl⟩ : ∃ n, remaining = n + 1 := ⟨remaining - 1, by omega⟩
    obtain ⟨s, hs⟩ := hok t (by simp)
    unfold retryLoop
    simp only [hs]
    refine ⟨trivial, ?_, ?_, t, [.printf "File upload successful: %+v\n" [.summary s]], ?_, ?_, ?_⟩
    · simp [uploadRequests_append, uploadRequests]
    · simp [sleeps_append, sleeps]
    · simp
    · simp [uploadRequests]
    · simp [sleeps]
  | succ j ih =>
    intro remaining i t hrem hfail hok
    obtain ⟨n, rfl⟩ : ∃ n, remaining = n + 1 := ⟨remaining - 1, by omega⟩
    obtain ⟨e, he⟩ := hfail t (le_refl _) (by omega)
    unfold retryLoop
    simp only [he]
    have hlen : (uploadRequests (t ++ [.upload api params,
        .printf "Upload attempt %d failed: %v. Retrying...\n" [.int (i + 1), .err e],
        .sleep (Second * 2)])).length = (uploadRequests t).length + 1 := by
      simp [uploadRequests_append, uploadRequests]
    obtain ⟨h1, h2, h3, pre, post, h4, h5, h6⟩ := ih n (i + 1)
      (t ++ [.upload api params,
        .printf "Upload attempt %d failed: %v. Retrying...\n" [.int (i + 1), .err e],
        .sleep (Second * 2)]) (by omega)
      (fun h hle hlt => hfail h (by omega) (by omega))
      (fun h heq => hok h (by omega))
    refine ⟨h1, ?_, ?_, pre, post, h4, h5, h6⟩
    · rw [h2]; simp [uploadRequests_append, uploadRequests, List.replicate_succ]
    · rw [h3]; simp [sleeps_append, sleeps, List.replicate_succ]

/-! ## `uploadFile` -/

theorem toInt_of_lt (n : Nat) (h : n < 2 ^ 63) : toInt n = n := by
  unfold toInt intBits
  have h2 : (n : Int) < 9223372036854775808 := by exact_mod_cast h
  have h0 : (0 : Int) ≤ n := Int.ofNat_nonneg n
  norm_num
  omega

theorem uploadFile_statPaths (w : World) (api : Client) (channelID filePath : String)
    (t : Trace) :
    statPaths (uploadFile w api channelID filePath t).2 = statPaths t ++ [filePath] := by
  unfold uploadFile
  cases h1 : w.Stat t filePath with
  | error e => simp [statPaths_append, statPaths]
  | ok fileInfo =>
    by_cases hz : fileInfo.size = 0
    · simp [hz, statPaths_append, statPaths]
    · cases h2 : w.Abs (t ++ [.stat filePath]) filePath with
      | error e => simp [hz, h2, statPaths_append, statPaths]
      | ok absPath =>
        cases h3 : w.Open (t ++ [.stat filePath, .abs filePath]) absPath with
        | error e => simp [hz, h2, h3, statPaths_append, statPaths]
        | ok file => simp [hz, h2, h3, statPaths_append, statPaths, retryLoop_statPaths]

theorem uploadFile_of_checks (w : World) (api : Client) (channelID filePath : String)
    (t : Trace) (fileInfo : FileInfo) (absPath : String) (file : File)
    (hstat : w.Stat t filePath = .ok fileInfo) (hsize : fileInfo.size ≠ 0)
    (habs : w.Abs (t ++ [.stat filePath]) filePath = .ok absPath)
    (hopen : w.Open (t ++ [.stat filePath, .abs filePath]) absPath = .ok file) :
    uploadFile w api channelID filePath t =
      ((retryLoop w api (requestFor w channelID filePath fileInfo file) 3 3 0
          (t ++ [.stat filePath, .abs filePath, .openFile absPath,
            .printf "Uploading file '%s' to channel '%s'\n"
              [.str (filepath.Base filePath), .str channelID]])).1,
        (retryLoop w api (requestFor w channelID filePath fileInfo file) 3 3 0
          (t ++ [.stat filePath, .abs filePath, .openFile absPath,
            .printf "Uploading file '%s' to channel '%s'\n"
              [.str (filepath.Base filePath), .str channelID]])).2 ++ [.close file]) := by
  unfold uploadFile
  simp only [hstat, hsize, if_false, habs, List.append_assoc, List.singleton_append, hopen,
    List.cons_append, List.nil_append, requestFor]

theorem uploadFile_requests (w : World) (api : Client) (channelID filePath : String)
    (t : Trace) :
    ∃ k request, k ≤ 3 ∧
      uploadRequests (uploadFile w api channelID filePath t).2 =
        uploadRequests t ++ List.replicate k request ∧
      (k = 0 ∨ ∃ fileInfo file, w.Stat t filePath = .ok fileInfo ∧ fileInfo.size ≠ 0 ∧
        request = requestFor w channelID filePath fileInfo file) := by
  have dflt : UploadFileV2Parameters := ⟨"", "", "", "", ⟨0⟩, 0⟩
  cases h1 : w.Stat t filePath with
  | error e =>
    exact ⟨0, dflt, by omega, by simp [uploadFile, h1, uploadRequests_append, uploadRequests],
      Or.inl rfl⟩
  | ok fileInfo =>
    by_cases hz : fileInfo.size = 0
    · exact ⟨0, dflt, by omega,
        by simp [uploadFile, h1, hz, uploadRequests_append, uploadRequests], Or.inl rfl⟩
    · cases h2 : w.Abs (t ++ [.stat filePath]) filePath with
      | error e =>
        exact ⟨0, dflt, by omega,
          by simp [uploadFile, h1, hz, h2, uploadRequests_append, uploadRequests], Or.inl rfl⟩
      | ok absPath =>
        cases h3 : w.Open (t ++ [.stat filePath, .abs filePath]) absPath with
        | error e =>
          exact ⟨0, dflt, by omega,
            by simp [uploadFile, h1, hz, h2, h3, uploadRequests_append, uploadRequests],
            Or.inl rfl⟩
        | ok file =>
          obtain ⟨k, hk, hreq⟩ := retryLoop_requests w api
            (requestFor w channelID filePath fileInfo file) 3 3 0
            (t ++ [.stat filePath, .abs filePath, .openFile absPath,
              .printf "Uploading file '%s' to channel '%s'\n"
                [.str (filepath.Base filePath), .str channelID]])
          refine ⟨k, requestFor w channelID filePath fileInfo file, hk, ?_,
            Or.inr ⟨fileInfo, file, rfl, hz, rfl⟩⟩
          rw [uploadFile_of_checks w api channelID filePath t fileInfo absPath file h1 hz h2 h3]
          simp only [uploadRequests_append, hreq]
          simp [uploadRequests]

theorem uploadFile_all_fail (w : World) (api : Client) (channelID filePath : String)
    (t : Trace) (fileInfo : FileInfo) (absPath : String) (file : File)
    (hstat : w.Stat t filePath = .ok fileInfo) (hsize : fileInfo.size ≠ 0)
    (habs : w.Abs (t ++ [.stat filePath]) filePath = .ok absPath)
    (hopen : w.Open (t ++ [.stat filePath, .abs filePath]) absPath = .ok file)
    (hfail : ∀ h params, ∃ err, w.UploadFileV2 h api params = .error err) :
    (uploadFile w api channelID filePath t).1 =
        some (Errorf "failed to upload file after 3 attempts") ∧
      uploadRequests (uploadFile w api channelID filePath t).2 =
        uploadRequests t ++
          List.replicate 3 (requestFor w channelID filePath fileInfo file) ∧
      sleeps (uploadFile w api channelID filePath t).2 =
        sleeps t ++ List.replicate 3 (Second * 2) := by
  rw [uploadFile_of_checks w api channelID filePath t fileInfo absPath file hstat hsize habs hopen]
  obtain ⟨h1, h2, h3⟩ := retryLoop_all_fail w api
    (requestFor w channelID filePath fileInfo file) (fun h => hfail h _) 3 3 0
    (t ++ [.stat filePath, .abs filePath, .openFile absPath,
      .printf "Uploading file '%s' to channel '%s'\n"
        [.str (filepath.Base filePath), .str channelID]])
  refine ⟨?_, ?_, ?_⟩
  · simp only [h1]; rfl
  · simp only [uploadRequests_append, h2]; simp [uploadRequests]
  · simp only [sleeps_append, h3]; simp [sleeps]

/-! ## The claims about `uploadFile` -/

/-- C1, evaluated on the code: for a file that passes every check while all
three upload attempts fail, `uploadFile` sleeps three times, not twice; the
third failed attempt is followed by a 2-second sleep before the file is closed
and the aggregated error is returned. -/
theorem uploadFile_sleeps_after_last_attempt :
    (uploadFile (sampleWorld fun _ => true) ⟨"xoxb-1"⟩ "C42" "a.txt" []).1 =
        some (Errorf "failed to upload file after 3 attempts") ∧
      sleeps (uploadFile (sampleWorld fun _ => true) ⟨"xoxb-1"⟩ "C42" "a.txt" []).2 =
        [2000000000, 2000000000, 2000000000] ∧
      (uploadFile (sampleWorld fun _ => true) ⟨"xoxb-1"⟩ "C42" "a.txt" []).2.drop 10 =
        [.upload ⟨"xoxb-1"⟩
            ⟨"C42", "a.txt", "Uploaded File", "Here's the uploaded file", ⟨3⟩, 10⟩,
          .printf "Upload attempt %d failed: %v. Retrying...\n"
            [.int 3, .err ⟨"slack server error"⟩],
          .sleep 2000000000,
          .close ⟨3⟩] := by
  decide

/-- C2: for a file that passes the stat, size, absolute-path and open steps, if
the upload capability returns an error on every call then `uploadFile` calls
it exactly 3 times, each time with the request built for the file, and returns
the error "failed to upload file after 3 attempts". -/
theorem uploadFile_exhausted_error (w : World) (api : Client) (channelID filePath : String)
    (t : Trace) (fileInfo : FileInfo) (absPath : String) (file : File)
    (hstat : w.Stat t filePath = .ok fileInfo) (hsize : fileInfo.size ≠ 0)
    (habs : w.Abs (t ++ [.stat filePath]) filePath = .ok absPath)
    (hopen : w.Open (t ++ [.stat filePath, .abs filePath]) absPath = .ok file)
    (hfail : ∀ h params, ∃ err, w.UploadFileV2 h api params = .error err) :
    (uploadFile w api channelID filePath t).1 =
        some (Errorf "failed to upload file after 3 attempts") ∧
      (uploadRequests (uploadFile w api channelID filePath t).2).length =
        (uploadRequests t).length + 3 ∧
      uploadRequests (uploadFile w api channelID filePath t).2 =
        uploadRequests t ++
          List.replicate 3 (requestFor w channelID filePath fileInfo file) := by
  obtain ⟨h1, h2, _⟩ :=
    uploadFile_all_fail w api channelID filePath t fileInfo absPath file hstat hsize habs hopen
      hfail
  exact ⟨h1, by rw [h2]; simp, h2⟩

/-- C3: for `1 ≤ k ≤ 3` and a file that passes the pre-upload checks, if the
upload capability fails on the calls number `1 .. k-1` made since `uploadFile`
began and succeeds on call number `k`, then `uploadFile` returns `nil`, calls
the capability exactly `k` times, sleeps exactly `k-1` times for 2 seconds, and
nothing after the last (successful) upload call is a sleep or another upload. -/
theorem uploadFile_succeeds_on_attempt (w : World) (api : Client)
    (channelID filePath : String) (t : Trace) (fileInfo : FileInfo) (absPath : String)
    (file : File) (k : Nat) (hk1 : 1 ≤ k) (hk3 : k ≤ 3)
    (hstat : w.Stat t filePath = .ok fileInfo) (hsize : fileInfo.size ≠ 0)
    (habs : w.Abs (t ++ [.stat filePath]) filePath = .ok absPath)
    (hopen : w.Open (t ++ [.stat filePath, .abs filePath]) absPath = .ok file)
    (hfail : ∀ h params, (uploadRequests t).length ≤ (uploadRequests h).length →
      (uploadRequests h).length + 1 < (uploadRequests t).length + k →
      ∃ err, w.UploadFileV2 h api params = .error err)
    (hok : ∀ h params, (uploadRequests h).length + 1 = (uploadRequests t).length + k →
      ∃ s, w.UploadFileV2 h api params = .ok s) :
    (uploadFile w api channelID filePath t).1 = none ∧
      (uploadRequests (uploadFile w api channelID filePath t).2).length =
        (uploadRequests t).length + k ∧
      sleeps (uploadFile w api channelID filePath t).2 =
        sleeps t ++ List.replicate (k - 1) (2 * Second) ∧
      ∃ pre request post,
        (uploadFile w api channelID filePath t).2 = pre ++ Event.upload api request :: post ∧
        uploadRequests post = [] ∧ sleeps post = [] := by
  obtain ⟨j, rfl⟩ : ∃ j, k = j + 1 := ⟨k - 1, by omega⟩
  rw [uploadFile_of_checks w api channelID filePath t fileInfo absPath file hstat hsize habs hopen]
  have hlen : (uploadRequests (t ++ [.stat filePath, .abs filePath, .openFile absPath,
      .printf "Uploading file '%s' to channel '%s'\n"
        [.str (filepath.Base filePath), .str channelID]])).length =
      (uploadRequests t).length := by
    simp [uploadRequests_append, uploadRequests]
  obtain ⟨h1, h2, h3, pre, post, h4, h5, h6⟩ :=
    retryLoop_success_after w api (requestFor w channelID filePath fileInfo file) 3 j 3 0
      (t ++ [.stat filePath, .abs filePath, .openFile absPath,
        .printf "Uploading file '%s' to channel '%s'\n"
          [.str (filepath.Base filePath), .str channelID]]) (by omega)
      (fun h hle hlt => hfail h _ (by omega) (by omega))
      (fun h heq => hok h _ (by omega))
  refine ⟨h1, ?_, ?_, pre, requestFor w channelID filePath fileInfo file,
    post ++ [.close file], ?_, ?_, ?_⟩
  · simp only [uploadRequests_append, h2]
    simp [uploadRequests]
  · simp only [sleeps_append, h3]
    simp [sleeps, Nat.mul_comm]
  · simp only [h4]; simp
  · simp [uploadRequests_append, h5, uploadRequests]
  · simp [sleeps_append, h6, sleeps]

/-- C4: for a path whose stat succeeds with size 0, `uploadFile` returns the
error "file is empty" right after the stat call: the file is not opened, the
upload capability is not called and nothing is slept. -/
theorem uploadFile_empty_file (w : World) (api : Client) (channelID filePath : String)
    (t : Trace) (fileInfo : FileInfo)
    (hstat : w.Stat t filePath = .ok fileInfo) (hsize : fileInfo.size = 0) :
    (uploadFile w api channelID filePath t).1 = some (Errorf "file is empty") ∧
      (uploadFile w api channelID filePath t).2 = t ++ [.stat filePath] ∧
      openedPaths (uploadFile w api channelID filePath t).2 = openedPaths t ∧
      uploadRequests (uploadFile w api channelID filePath t).2 = uploadRequests t ∧
      sleeps (uploadFile w api channelID filePath t).2 = sleeps t := by
  have h : uploadFile w api channelID filePath t =
      (some (Errorf "file is empty"), t ++ [.stat filePath]) := by
    simp [uploadFile, hstat, hsize]
  rw [h]
  simp [openedPaths_append, openedPaths, uploadRequests_append, uploadRequests, sleeps_append,
    sleeps]

/-- C5: for a path whose stat fails, `uploadFile` returns exactly the error of
the stat call and does nothing else: no open, no upload call, no sleep. -/
theorem uploadFile_stat_error (w : World) (api : Client) (channelID filePath : String)
    (t : Trace) (err : GoError) (hstat : w.Stat t filePath = .error err) :
    (uploadFile w api channelID filePath t).1 = some err ∧
      (uploadFile w api channelID filePath t).2 = t ++ [.stat filePath] ∧
      openedPaths (uploadFile w api channelID filePath t).2 = openedPaths t ∧
      uploadRequests (uploadFile w api channelID filePath t).2 = uploadRequests t ∧
      sleeps (uploadFile w api channelID filePath t).2 = sleeps t := by
  have h : uploadFile w api channelID filePath t = (some err, t ++ [.stat filePath]) := by
    simp [uploadFile, hstat]
  rw [h]
  simp [openedPaths_append, openedPaths, uploadRequests_append, uploadRequests, sleeps_append,
    sleeps]

/-- The base of `dir/name` is `name`, for a non-empty `name` without a
separator. -/
theorem Base_join (dir name : String) (hne : name ≠ "") (hsep : '/' ∉ name.data) :
    filepath.Base (dir ++ "/" ++ name) = name := by
  have hd : (dir ++ "/" ++ name).data = dir.data ++ '/' :: name.data := by
    simp [String.data_append]
  have hn : name.data ≠ [] := by
    intro h
    apply hne
    cases name
    simp_all
  have hrev : (dir.data ++ '/' :: name.data).reverse =
      name.data.reverse ++ '/' :: dir.data.reverse := by simp
  obtain ⟨c, r, hcr⟩ := List.exists_cons_of_ne_nil (by simpa using hn : name.data.reverse ≠ [])
  have hc : c ≠ '/' := by
    intro h
    apply hsep
    have : c ∈ name.data.reverse := by rw [hcr]; simp
    rw [← h]
    simpa using this
  have hall : ∀ a ∈ name.data.reverse, (decide (a ≠ '/')) = true := by
    intro a ha
    have : a ∈ name.data := by simpa using ha
    simp only [decide_eq_true_eq]
    intro h
    exact hsep (h ▸ this)
  unfold filepath.Base
  rw [hd]
  have hstrip : ((dir.data ++ '/' :: name.data).reverse.dropWhile (· = '/')).reverse =
      dir.data ++ '/' :: name.data := by
    rw [hrev, hcr, List.cons_append, List.dropWhile_cons_of_neg (by simpa using hc)]
    rw [← List.cons_append, ← hcr, ← hrev, List.reverse_reverse]
  have hlast : (((dir.data ++ '/' :: name.data).reverse).takeWhile (· ≠ '/')).reverse =
      name.data := by
    rw [hrev, List.takeWhile_append_of_pos hall, List.takeWhile_cons_of_neg (by simp)]
    simp
  simp only [hstrip, hlast, List.reverse_reverse]
  simp [hn]

/-- The base of a path is a single element: it holds no separator, unless it is
the root `/` itself. -/
theorem Base_single_element (path : String) :
    '/' ∉ (filepath.Base path).data ∨ filepath.Base path = "/" := by
  unfold filepath.Base
  by_cases h1 : path.data = []
  · left; rw [if_pos h1]; decide
  · rw [if_neg h1]
    simp only
    split_ifs with h2
    · right; rfl
    · left
      simp only [List.mem_reverse]
      intro hmem
      have := List.mem_takeWhile_imp hmem
      simp at this

/-- The base of a non-empty path without a separator is the path itself. -/
theorem Base_plain (name : String) (hne : name ≠ "") (hsep : '/' ∉ name.data) :
    filepath.Base name = name := by
  have hn : name.data ≠ [] := by
    intro h
    apply hne
    cases name
    simp_all
  obtain ⟨c, r, hcr⟩ := List.exists_cons_of_ne_nil (by simpa using hn : name.data.reverse ≠ [])
  have hc : c ≠ '/' := by
    intro h
    apply hsep
    have : c ∈ name.data.reverse := by rw [hcr]; simp
    rw [← h]
    simpa using this
  have hall : ∀ a ∈ name.data.reverse, (decide (a ≠ '/')) = true := by
    intro a ha
    have : a ∈ name.data := by simpa using ha
    simp only [decide_eq_true_eq]
    intro h
    exact hsep (h ▸ this)
  unfold filepath.Base
  have hstrip : (name.data.reverse.dropWhile (· = '/')).reverse = name.data := by
    rw [hcr, List.dropWhile_cons_of_neg (by simpa using hc), ← hcr, List.reverse_reverse]
  have hlast : (name.data.reverse.takeWhile (· ≠ '/')).reverse = name.data := by
    have := @List.takeWhile_append_of_pos Char (fun a => decide (a ≠ '/')) name.data.reverse []
      hall
    simp only [List.append_nil, List.takeWhile_nil] at this
    rw [this, List.reverse_reverse]
  simp only [hstrip, hlast, List.reverse_reverse]
  simp [hn]

/-- C9: the requests `uploadFile` passes to the upload capability are at most 3
copies of one request; when there is any, the stat of the path succeeded with a
non-zero size, and the request carries the given channel, as filename the
final path component of `filePath` (`filepath.Base filePath`: a single element
without separator unless it is the root, `name` when the path is `dir/name`,
the path itself when it has no separator), and as declared size the stat size,
which is positive; `int(fileInfo.Size())` is taken on a target whose `int` has
64 bits, as `intBits` fixes.  For `dir/photo.JPG`, opened as
`/home/bot/dir/photo.JPG`, the one request sent has filename `photo.JPG`. -/
theorem uploadFile_request_invariant (w : World) (api : Client)
    (channelID filePath : String) (t : Trace) :
    (∃ k request, k ≤ 3 ∧
      uploadRequests (uploadFile w api channelID filePath t).2 =
        uploadRequests t ++ List.replicate k request ∧
      (k = 0 ∨ ∃ fileInfo, w.Stat t filePath = .ok fileInfo ∧ fileInfo.size ≠ 0 ∧
        request.Channel = channelID ∧ request.Filename = filepath.Base filePath ∧
        ('/' ∉ request.Filename.data ∨ request.Filename = "/") ∧
        (∀ dir name : String, filePath = dir ++ "/" ++ name → name ≠ "" →
          '/' ∉ name.data → request.Filename = name) ∧
        (filePath ≠ "" → '/' ∉ filePath.data → request.Filename = filePath) ∧
        request.FileSize = (fileInfo.size : Int) ∧ 0 < request.FileSize)) ∧
      filepath.Base "/home/bot/dir/a.txt" = "a.txt" ∧
      filepath.Base "dir/sub/" = "sub" ∧
      uploadRequests
          (uploadFile (sampleWorld fun _ => false) ⟨"xoxb-1"⟩ "C42" "dir/photo.JPG" []).2 =
        [⟨"C42", "photo.JPG", "Image File", "Here's the image file", ⟨3⟩, 10⟩] := by
  refine ⟨?_, by decide, by decide, by decide⟩
  obtain ⟨k, request, hk, hreq, hor⟩ := uploadFile_requests w api channelID filePath t
  refine ⟨k, request, hk, hreq, ?_⟩
  rcases hor with h0 | ⟨fileInfo, file, hstat, hsize, rfl⟩
  · exact Or.inl h0
  · refine Or.inr ⟨fileInfo, hstat, hsize, rfl, rfl, ?_, ?_, ?_, ?_, ?_⟩
    · exact Base_single_element filePath
    · intro dir name hpath hne hsep
      show filepath.Base filePath = name
      rw [hpath]
      exact Base_join dir name hne hsep
    · intro hne hsep
      exact Base_plain filePath hne hsep
    · exact toInt_of_lt fileInfo.size fileInfo.size_lt
    · show 0 < toInt fileInfo.size
      rw [toInt_of_lt fileInfo.size fileInfo.size_lt]
      exact_mod_cast Nat.pos_of_ne_zero hsize

/-! ## `strings.Split` -/

theorem Index_none_Count (sep : Char) (s : List Char) (h : strings.Index s sep = none) :
    strings.Count s sep = 0 := by
  induction s with
  | nil => rfl
  | cons c cs ih =>
    unfold strings.Index at h
    by_cases hc : c = sep
    · simp [hc] at h
    · simp [hc] at h
      simp [strings.Count, hc, ih h]

theorem Index_some_Count (sep : Char) (s : List Char) (m : Nat)
    (h : strings.Index s sep = some m) :
    strings.Count s sep = strings.Count (s.drop (m + 1)) sep + 1 ∧
      s = s.take m ++ sep :: s.drop (m + 1) ∧ strings.Count (s.take m) sep = 0 := by
  induction s generalizing m with
  | nil => simp [strings.Index] at h
  | cons c cs ih =>
    unfold strings.Index at h
    by_cases hc : c = sep
    · simp [hc] at h
      subst h
      simp [strings.Count, hc]
      omega
    · simp [hc] at h
      obtain ⟨a, ha, rfl⟩ := h
      obtain ⟨h1, h2, h3⟩ := ih a ha
      refine ⟨?_, ?_, ?_⟩
      · simp [strings.Count, hc, h1]
      · simp only [List.take_succ_cons, List.drop_succ_cons, List.cons_append]
        rw [← h2]
      · simp [strings.Count, hc, h3]

theorem genSplit_length (sep : Char) (n : Nat) (s : List Char)
    (h : strings.Count s sep = n) : (strings.genSplit sep n s).length = n + 1 := by
  induction n generalizing s with
  | zero => simp [strings.genSplit]
  | succ n ih =>
    unfold strings.genSplit
    cases hI : strings.Index s sep with
    | none =>
      have := Index_none_Count sep s hI
      omega
    | some m =>
      have := (Index_some_Count sep s m hI).1
      simp [ih (s.drop (m + 1)) (by omega)]

theorem Split_length (s : String) (sep : Char) :
    (strings.Split s sep).length = strings.Count s.data sep + 1 := by
  simp [strings.Split, genSplit_length sep _ s.data rfl]

/-- The pieces of `genSplit`, joined again by the separator, give the string
back; cut `Count s sep` times, no piece holds a separator. -/
theorem genSplit_pieces (sep : Char) (n : Nat) (s : List Char)
    (h : strings.Count s sep = n) :
    List.intercalate [sep] (strings.genSplit sep n s) = s ∧
      ∀ piece ∈ strings.genSplit sep n s, strings.Count piece sep = 0 := by
  induction n generalizing s with
  | zero => simp [strings.genSplit, List.intercalate, h]
  | succ n ih =>
    unfold strings.genSplit
    cases hI : strings.Index s sep with
    | none =>
      have := Index_none_Count sep s hI
      omega
    | some m =>
      obtain ⟨h1, h2, h3⟩ := Index_some_Count sep s m hI
      obtain ⟨ih1, ih2⟩ := ih (s.drop (m + 1)) (by omega)
      have hne : strings.genSplit sep n (s.drop (m + 1)) ≠ [] := by
        intro h0
        have := genSplit_length sep n (s.drop (m + 1)) (by omega)
        simp [h0] at this
      refine ⟨?_, ?_⟩
      · obtain ⟨x, xs, hx⟩ := List.exists_cons_of_ne_nil hne
        have ih1' := ih1
        simp only [hx, List.intercalate, List.intersperse, List.flatten] at ih1' ⊢
        conv_rhs => rw [h2]
        simp [List.intersperse, ← ih1']
      · intro piece hp
        simp only [List.mem_cons] at hp
        rcases hp with rfl | hp
        · exact h3
        · exact ih2 piece hp

/-! ## The driver -/

theorem driverLoop_statPaths (w : World) (api : Client) (channelID : String)
    (elems : List String) (t : Trace) :
    statPaths (driverLoop w api channelID elems t) =
      statPaths t ++ elems.map strings.TrimSpace := by
  induction elems generalizing t with
  | nil => simp [driverLoop]
  | cons e rest ih =>
    unfold driverLoop
    have hup := uploadFile_statPaths w api channelID (strings.TrimSpace e) t
    cases hr : uploadFile w api channelID (strings.TrimSpace e) t with
    | mk r t1 =>
      rw [hr] at hup
      cases r with
      | none => simp only [hr, ih]; simp at hup; simp [hup]
      | some err =>
        simp only [hr, ih, statPaths_append]; simp at hup; simp [hup, statPaths]

theorem main_reaches_loop (w : World) (p : Process) (files : String)
    (hdotenv : p.dotenvLoad = none) (htoken : p.Getenv "SLACK_BOT_TOKEN" ≠ "")
    (hchannel : p.Getenv "CHANNEL_ID" ≠ "") (hflags : p.flags = .given files)
    (hfiles : files ≠ "") :
    main w p = (.returned,
      driverLoop w ⟨p.Getenv "SLACK_BOT_TOKEN"⟩ (p.Getenv "CHANNEL_ID")
        (strings.Split files ',') []) := by
  unfold main
  simp [hdotenv, htoken, hchannel, hflags, FlagParse.filePaths, hfiles]

/-! ## The claims about titles and the driver -/

/-- C6: the title and the comment `uploadFile` derives depend only on the
lowercased extension of the path: they are the PDF labels iff it is `.pdf`,
the image labels iff it is `.png`, `.jpg`, `.jpeg` or `.gif`, and the generic
labels iff it is none of the five; every request `uploadFile` passes on carries
them; `report.pdf`, `photo.JPG` and `notes.txt` get the titles "PDF Document",
"Image File" and "Uploaded File". -/
theorem title_comment_by_extension (w : World) (filePath : String) :
    ((titleAndComment (lowercasedExt w filePath)).1 = "PDF Document" ↔
        lowercasedExt w filePath = ".pdf") ∧
      ((titleAndComment (lowercasedExt w filePath)).2 = "Here's the PDF document" ↔
        lowercasedExt w filePath = ".pdf") ∧
      ((titleAndComment (lowercasedExt w filePath)).1 = "Image File" ↔
        lowercasedExt w filePath ∈ [".png", ".jpg", ".jpeg", ".gif"]) ∧
      ((titleAndComment (lowercasedExt w filePath)).2 = "Here's the image file" ↔
        lowercasedExt w filePath ∈ [".png", ".jpg", ".jpeg", ".gif"]) ∧
      ((titleAndComment (lowercasedExt w filePath)).1 = "Uploaded File" ↔
        lowercasedExt w filePath ∉ [".pdf", ".png", ".jpg", ".jpeg", ".gif"]) ∧
      ((titleAndComment (lowercasedExt w filePath)).2 = "Here's the uploaded file" ↔
        lowercasedExt w filePath ∉ [".pdf", ".png", ".jpg", ".jpeg", ".gif"]) ∧
      (∀ (api : Client) (channelID : String) (t : Trace), ∃ k request,
        uploadRequests (uploadFile w api channelID filePath t).2 =
          uploadRequests t ++ List.replicate k request ∧
        request.Title = (titleAndComment (lowercasedExt w filePath)).1 ∧
        request.InitialComment = (titleAndComment (lowercasedExt w filePath)).2) ∧
      (titleAndComment (lowercasedExt w "report.pdf")).1 = "PDF Document" ∧
      (titleAndComment (lowercasedExt w "photo.JPG")).1 = "Image File" ∧
      (titleAndComment (lowercasedExt w "notes.txt")).1 = "Uploaded File" := by
  refine ⟨?_, ?_, ?_, ?_, ?_, ?_, ?_, rfl, rfl, rfl⟩
  · unfold titleAndComment
    split_ifs with h1 h2 <;> simp [h1]
  · unfold titleAndComment
    split_ifs with h1 h2 <;> simp [h1]
  · unfold titleAndComment
    split_ifs with h1 h2
    · simp [h1]
    · simpa using h2
    · simpa using h2
  · unfold titleAndComment
    split_ifs with h1 h2
    · simp [h1]
    · simpa using h2
    · simpa using h2
  · unfold titleAndComment
    split_ifs with h1 h2
    · simp [h1]
    · simp only [List.mem_cons, List.mem_singleton, List.not_mem_nil, or_false]
      simp [h2]
    · simp only [List.mem_cons, List.mem_singleton, List.not_mem_nil, or_false]
      simp [h1, h2]
  · unfold titleAndComment
    split_ifs with h1 h2
    · simp [h1]
    · simp only [List.mem_cons, List.mem_singleton, List.not_mem_nil, or_false]
      simp [h2]
    · simp only [List.mem_cons, List.mem_singleton, List.not_mem_nil, or_false]
      simp [h1, h2]
  · intro api channelID t
    obtain ⟨k, request, _, hreq, hor⟩ := uploadFile_requests w api channelID filePath t
    rcases hor with h0 | ⟨fileInfo, file, _, _, rfl⟩
    · subst h0
      exact ⟨0, requestFor w channelID filePath ⟨0, by decide⟩ ⟨0⟩, by simpa using hreq, rfl,
        rfl⟩
    · exact ⟨k, _, hreq, rfl, rfl⟩

/-- C7: when start-up succeeds and `-files` has a non-empty value, `main`
returns after invoking `uploadFile` exactly once per comma-separated element
of the value, in order, on the element trimmed of white space, whatever each
invocation returns. -/
theorem main_uploads_every_element (w : World) (p : Process) (files : String)
    (hdotenv : p.dotenvLoad = none) (htoken : p.Getenv "SLACK_BOT_TOKEN" ≠ "")
    (hchannel : p.Getenv "CHANNEL_ID" ≠ "") (hflags : p.flags = .given files)
    (hfiles : files ≠ "") :
    (main w p).1 = .returned ∧
      statPaths (main w p).2 = (strings.Split files ',').map strings.TrimSpace := by
  rw [main_reaches_loop w p files hdotenv htoken hchannel hflags hfiles]
  exact ⟨rfl, by simp [driverLoop_statPaths, statPaths]⟩

/-- C8: when the bot token is empty, or the channel is empty, or `-files` is
absent or given with an empty value, `main` ends through `log.Fatal` without
having made any call: `uploadFile` is not invoked and nothing is uploaded. -/
theorem main_fatal_without_prerequisites (w : World) (p : Process)
    (h : p.Getenv "SLACK_BOT_TOKEN" = "" ∨ p.Getenv "CHANNEL_ID" = "" ∨
      p.flags = .absent ∨ p.flags = .given "") :
    (∃ msg, (main w p).1 = .fatal msg) ∧ (main w p).2 = [] ∧
      (statPaths (main w p).2).length = 0 ∧ (uploadRequests (main w p).2).length = 0 := by
  have key : (∃ msg, (main w p).1 = .fatal msg) ∧ (main w p).2 = [] := by
    unfold main
    cases hd : p.dotenvLoad with
    | some e => exact ⟨⟨_, rfl⟩, rfl⟩
    | none =>
      by_cases hc : p.Getenv "SLACK_BOT_TOKEN" = "" ∨ p.Getenv "CHANNEL_ID" = ""
      · rw [if_pos hc]
        exact ⟨⟨_, rfl⟩, rfl⟩
      · have hflags : p.flags = .absent ∨ p.flags = .given "" := by tauto
        rcases hflags with hf | hf <;> simp [hc, hf, FlagParse.filePaths]
  obtain ⟨h1, h2⟩ := key
  exact ⟨h1, h2, by rw [h2]; rfl, by rw [h2]; rfl⟩

/-- C10: when start-up succeeds and `-files` has a non-empty value with `n`
commas, `main` invokes `uploadFile` exactly `n + 1` times, and an element that
is empty after trimming is not skipped: `uploadFile` is invoked with the empty
path for it. -/
theorem main_invocation_count (w : World) (p : Process) (files : String)
    (hdotenv : p.dotenvLoad = none) (htoken : p.Getenv "SLACK_BOT_TOKEN" ≠ "")
    (hchannel : p.Getenv "CHANNEL_ID" ≠ "") (hflags : p.flags = .given files)
    (hfiles : files ≠ "") :
    (statPaths (main w p).2).length = strings.Count files.data ',' + 1 ∧
      ∀ e ∈ strings.Split files ',', strings.TrimSpace e = "" →
        "" ∈ statPaths (main w p).2 := by
  rw [main_reaches_loop w p files hdotenv htoken hchannel hflags hfiles]
  simp only [driverLoop_statPaths, statPaths, List.nil_append, List.length_map, Split_length,
    true_and]
  intro e he hempty
  exact List.mem_map.mpr ⟨e, he, hempty⟩

/-! ## The theorems at sample inputs -/

/-- The exhaustion theorem at `a.txt` in a world whose uploads always fail. -/
theorem uploadFile_exhausted_error_witness :
    (sampleWorld fun _ => true).Stat [] "a.txt" = .ok ⟨10, by decide⟩ ∧
      (∀ h params, ∃ err,
        (sampleWorld fun _ => true).UploadFileV2 h ⟨"xoxb-1"⟩ params = .error err) ∧
      (uploadFile (sampleWorld fun _ => true) ⟨"xoxb-1"⟩ "C42" "a.txt" []).1 =
        some (Errorf "failed to upload file after 3 attempts") ∧
      (uploadRequests (uploadFile (sampleWorld fun _ => true) ⟨"xoxb-1"⟩ "C42" "a.txt" []).2).length
        = 3 :=
  ⟨rfl, fun _ _ => ⟨_, rfl⟩,
    (uploadFile_exhausted_error (sampleWorld fun _ => true) ⟨"xoxb-1"⟩ "C42" "a.txt" []
      ⟨10, by decide⟩ "/home/bot/a.txt" ⟨3⟩ rfl (by decide) rfl rfl
      (fun _ _ => ⟨_, rfl⟩)).1,
    (uploadFile_exhausted_error (sampleWorld fun _ => true) ⟨"xoxb-1"⟩ "C42" "a.txt" []
      ⟨10, by decide⟩ "/home/bot/a.txt" ⟨3⟩ rfl (by decide) rfl rfl
      (fun _ _ => ⟨_, rfl⟩)).2.1⟩

/-- The success theorem at `k = 2`: the first upload of `a.txt` fails, the
second succeeds; two calls, one sleep, no error. -/
theorem uploadFile_succeeds_on_attempt_witness :
    1 ≤ 2 ∧ 2 ≤ 3 ∧
      (sampleWorld fun n => decide (n < 1)).Stat [] "a.txt" = .ok ⟨10, by decide⟩ ∧
      (uploadFile (sampleWorld fun n => decide (n < 1)) ⟨"xoxb-1"⟩ "C42" "a.txt" []).1 = none ∧
      (uploadRequests
        (uploadFile (sampleWorld fun n => decide (n < 1)) ⟨"xoxb-1"⟩ "C42" "a.txt" []).2).length
        = 2 ∧
      sleeps (uploadFile (sampleWorld fun n => decide (n < 1)) ⟨"xoxb-1"⟩ "C42" "a.txt" []).2 =
        [2000000000] :=
  have key := uploadFile_succeeds_on_attempt (sampleWorld fun n => decide (n < 1)) ⟨"xoxb-1"⟩
    "C42" "a.txt" [] ⟨10, by decide⟩ "/home/bot/a.txt" ⟨3⟩ 2 (by decide) (by decide) rfl
    (by decide) rfl rfl
    (fun h _ _ hlt => ⟨⟨"slack server error"⟩, by
      have h0 : (uploadRequests h).length = 0 := by
        simp only [uploadRequests, List.length_nil] at hlt; omega
      simp only [sampleWorld, h0]; rfl⟩)
    (fun h _ heq => ⟨⟨"F0123", "file"⟩, by
      have h1 : (uploadRequests h).length = 1 := by
        simp only [uploadRequests, List.length_nil] at heq; omega
      simp only [sampleWorld, h1]; rfl⟩)
  ⟨by decide, by decide, rfl, key.1, key.2.1, key.2.2.1⟩

/-- The empty-file theorem at `empty.txt`, whose stat reports size 0. -/
theorem uploadFile_empty_file_witness :
    (sampleWorld fun _ => false).Stat [] "empty.txt" = .ok ⟨0, by decide⟩ ∧
      (uploadFile (sampleWorld fun _ => false) ⟨"xoxb-1"⟩ "C42" "empty.txt" []).1 =
        some (Errorf "file is empty") ∧
      (uploadFile (sampleWorld fun _ => false) ⟨"xoxb-1"⟩ "C42" "empty.txt" []).2 =
        [.stat "empty.txt"] :=
  ⟨rfl,
    (uploadFile_empty_file (sampleWorld fun _ => false) ⟨"xoxb-1"⟩ "C42" "empty.txt" []
      ⟨0, by decide⟩ rfl rfl).1,
    (uploadFile_empty_file (sampleWorld fun _ => false) ⟨"xoxb-1"⟩ "C42" "empty.txt" []
      ⟨0, by decide⟩ rfl rfl).2.1⟩

/-- The stat-error theorem at `b.txt`, which does not exist. -/
theorem uploadFile_stat_error_witness :
    (sampleWorld fun _ => false).Stat [] "b.txt" =
        .error ⟨"stat b.txt: no such file or directory"⟩ ∧
      (uploadFile (sampleWorld fun _ => false) ⟨"xoxb-1"⟩ "C42" "b.txt" []).1 =
        some ⟨"stat b.txt: no such file or directory"⟩ ∧
      (uploadFile (sampleWorld fun _ => false) ⟨"xoxb-1"⟩ "C42" "b.txt" []).2 =
        [.stat "b.txt"] :=
  ⟨rfl,
    (uploadFile_stat_error (sampleWorld fun _ => false) ⟨"xoxb-1"⟩ "C42" "b.txt" []
      ⟨"stat b.txt: no such file or directory"⟩ rfl).1,
    (uploadFile_stat_error (sampleWorld fun _ => false) ⟨"xoxb-1"⟩ "C42" "b.txt" []
      ⟨"stat b.txt: no such file or directory"⟩ rfl).2.1⟩

/-- The driver theorem at `"a.txt, b.txt,c.txt"`: the call for `b.txt` fails and
is logged, and `c.txt` is attempted all the same. -/
theorem main_uploads_every_element_witness :
    (sampleProcess "a.txt, b.txt,c.txt").dotenvLoad = none ∧
      (sampleProcess "a.txt, b.txt,c.txt").Getenv "SLACK_BOT_TOKEN" ≠ "" ∧
      (sampleProcess "a.txt, b.txt,c.txt").Getenv "CHANNEL_ID" ≠ "" ∧
      (sampleProcess "a.txt, b.txt,c.txt").flags = .given "a.txt, b.txt,c.txt" ∧
      "a.txt, b.txt,c.txt" ≠ "" ∧
      (uploadFile (sampleWorld fun _ => false) ⟨"xoxb-1"⟩ "C42" "b.txt" []).1 ≠ none ∧
      Event.printf "Error uploading file %s: %v"
          [.str "b.txt", .err ⟨"stat b.txt: no such file or directory"⟩] ∈
        (main (sampleWorld fun _ => false) (sampleProcess "a.txt, b.txt,c.txt")).2 ∧
      statPaths (main (sampleWorld fun _ => false) (sampleProcess "a.txt, b.txt,c.txt")).2 =
        ["a.txt", "b.txt", "c.txt"] :=
  ⟨rfl, by decide, by decide, rfl, by decide, by decide, by decide,
    (main_uploads_every_element (sampleWorld fun _ => false)
      (sampleProcess "a.txt, b.txt,c.txt") "a.txt, b.txt,c.txt" rfl (by decide) (by decide) rfl
      (by decide)).2.trans (by decide)⟩

/-- The start-up theorem at a process whose environment is empty. -/
theorem main_fatal_without_prerequisites_witness :
    ((fun _ => "") "SLACK_BOT_TOKEN" = "" ∨ (fun _ => "") "CHANNEL_ID" = "" ∨
        FlagParse.given "a.txt" = .absent ∨ FlagParse.given "a.txt" = .given "") ∧
      (∃ msg, (main (sampleWorld fun _ => false)
        ⟨none, fun _ => "", .given "a.txt"⟩).1 = .fatal msg) ∧
      (main (sampleWorld fun _ => false) ⟨none, fun _ => "", .given "a.txt"⟩).2 = [] :=
  ⟨Or.inl rfl,
    (main_fatal_without_prerequisites (sampleWorld fun _ => false)
      ⟨none, fun _ => "", .given "a.txt"⟩ (Or.inl rfl)).1,
    (main_fatal_without_prerequisites (sampleWorld fun _ => false)
      ⟨none, fun _ => "", .given "a.txt"⟩ (Or.inl rfl)).2.1⟩

/-- The count theorem at `"a.txt,,b.txt"` (two commas, three invocations), at
`"a.txt,"` and at a value of three spaces: each time `uploadFile` is invoked
with the empty path. -/
theorem main_invocation_count_witness :
    (sampleProcess "a.txt,,b.txt").flags = .given "a.txt,,b.txt" ∧ "a.txt,,b.txt" ≠ "" ∧
      (statPaths
        (main (sampleWorld fun _ => false) (sampleProcess "a.txt,,b.txt")).2).length = 3 ∧
      "" ∈ statPaths (main (sampleWorld fun _ => false) (sampleProcess "a.txt,,b.txt")).2 ∧
      "" ∈ statPaths (main (sampleWorld fun _ => false) (sampleProcess "a.txt,")).2 ∧
      "" ∈ statPaths (main (sampleWorld fun _ => false) (sampleProcess "   ")).2 :=
  ⟨rfl, by decide,
    (main_invocation_count (sampleWorld fun _ => false) (sampleProcess "a.txt,,b.txt")
      "a.txt,,b.txt" rfl (by decide) (by decide) rfl (by decide)).1,
    (main_invocation_count (sampleWorld fun _ => false) (sampleProcess "a.txt,,b.txt")
      "a.txt,,b.txt" rfl (by decide) (by decide) rfl (by decide)).2 "" (by decide) (by decide),
    (main_invocation_count (sampleWorld fun _ => false) (sampleProcess "a.txt,")
      "a.txt," rfl (by decide) (by decide) rfl (by decide)).2 "" (by decide) (by decide),
    (main_invocation_count (sampleWorld fun _ => false) (sampleProcess "   ")
      "   " rfl (by decide) (by decide) rfl (by decide)).2 "   " (by decide) (by decide)⟩

/-- The request theorem at `dir/photo.JPG`: one request is sent and its filename
is `photo.JPG`, neither the path given nor the absolute path opened. -/
theorem uploadFile_request_invariant_witness :
    "dir/photo.JPG" = "dir" ++ "/" ++ "photo.JPG" ∧ "photo.JPG" ≠ "" ∧
      '/' ∉ "photo.JPG".data ∧
      ∃ k request, 0 < k ∧ k ≤ 3 ∧
        uploadRequests
            (uploadFile (sampleWorld fun _ => false) ⟨"xoxb-1"⟩ "C42" "dir/photo.JPG" []).2 =
          List.replicate k request ∧
        request.Filename = "photo.JPG" := by
  refine ⟨by decide, by decide, by decide, ?_⟩
  obtain ⟨⟨k, request, hk, hreq, hor⟩, _, _, hrun⟩ :=
    uploadFile_request_invariant (sampleWorld fun _ => false) ⟨"xoxb-1"⟩ "C42"
      "dir/photo.JPG" []
  rw [hrun] at hreq
  rcases hor with h0 | ⟨fileInfo, _, _, _, _, _, hjoin, _, _, _⟩
  · subst h0
    simp [uploadRequests] at hreq
  · refine ⟨k, request, ?_, hk, ?_, hjoin "dir" "photo.JPG" (by decide) (by decide) (by decide)⟩
    · rcases Nat.eq_zero_or_pos k with h0 | hpos
      · subst h0
        simp [uploadRequests] at hreq
      · exact hpos
    · rw [hrun]
      simpa [uploadRequests] using hreq

end SlackFileBot
